import Mathlib

/-!
Verification of the essay-OCR intake pipeline (`src/ocr_web_app.py`).

The development is a shallow embedding of the pipeline's pure logic:

* Python strings are Lean `String`s; Python's substring test `a in b` is
  `pyIn`, `str.lower()` is `pyLower` (identity on the Hangul data that
  occurs here, ASCII letters mapped down), `str.replace(" ", "")` is
  `stripSpaces`, `str.strip()` is `pyStrip`, and `int(...)` on a cell
  is `pyInt?` (whitespace-trimmed optionally signed decimal, `none` models
  a raised `ValueError`).
* The external services (Gemini header/restore, CLOVA OCR, the Google
  spreadsheet) are oracles: a page environment records what each service
  would return for that page, and the sheet is given as its cell rows.
* `st.warning` side effects are made explicit as returned warning lists;
  page images are opaque and omitted from the embedded records.
-/

namespace OcrWebApp

/-- Characters of `s` that are not the space character: models Python's
`s.replace(" ", "")` from `run_header_ocr` (line 338). -/
def stripSpaces (s : String) : String :=
  String.mk (s.data.filter (fun c => c ≠ ' '))

/-- Models Python `str.lower()`: ASCII letters are mapped to lower case;
the Hangul strings this program handles are fixed points, as in CPython. -/
def pyLower (s : String) : String :=
  String.mk (s.data.map Char.toLower)

/-- `needle` begins `hay` (character lists). -/
def isPrefixL : List Char → List Char → Bool
  | [], _ => true
  | _ :: _, [] => false
  | a :: as, b :: bs => a == b && isPrefixL as bs

/-- `needle` occurs contiguously in `hay` (character lists): the semantics of
Python's `needle in hay` on strings, so the empty needle matches. -/
def isSubstrL (needle : List Char) : List Char → Bool
  | [] => isPrefixL needle []
  | b :: bs => isPrefixL needle (b :: bs) || isSubstrL needle bs

/-- Python's `a in b` on strings. -/
def pyIn (a b : String) : Bool :=
  isSubstrL a.data b.data

/-- The empty string is a substring of every string, as in Python. -/
lemma pyIn_empty_left (b : String) : pyIn "" b = true := by
  unfold pyIn
  show isSubstrL [] b.data = true
  cases b.data with
  | nil => rfl
  | cons c cs => simp [isSubstrL, isPrefixL]

/-- Models Python `str.strip()`: leading and trailing whitespace removed. -/
def pyStrip (s : String) : String :=
  String.mk
    (((s.data.dropWhile Char.isWhitespace).reverse.dropWhile
        Char.isWhitespace).reverse)

/-- Decimal value of a nonempty all-digit character list, else `none`. -/
def digitsVal (cs : List Char) : Option Nat :=
  if cs ≠ [] && cs.all Char.isDigit then
    some (cs.foldl (fun acc c => 10 * acc + (c.toNat - 48)) 0)
  else none

/-- Models Python `int(s)` on a string: surrounding whitespace ignored,
an optional sign, then decimal digits; `none` models a raised
`ValueError`. -/
def pyInt? (s : String) : Option Int :=
  match (pyStrip s).data with
  | '-' :: rest => (digitsVal rest).map (fun n => -(n : Int))
  | '+' :: rest => (digitsVal rest).map (fun n => (n : Int))
  | cs => (digitsVal cs).map (fun n => (n : Int))

/-!  Academy-name normalization (`ACADEMY_MAPPING`, lines 40-45, applied in
`run_header_ocr`, lines 336-343). -/

/-- The static alias table, in the source's (insertion) order: Python dicts
iterate in insertion order, so `ACADEMY_MAPPING.items()` scans exactly this
list. -/
def ACADEMY_MAPPING : List (String × String) :=
  [("김포각인", "김포 각인"), ("김포", "김포 각인"), ("각인", "김포 각인"),
   ("본원", "본원"), ("대치박기호", "본원"), ("박기호", "본원"),
   ("분당러셀", "분당 러셀"), ("분당", "분당 러셀"), ("러셀분당", "분당 러셀"),
   ("대치러셀", "대치 러셀"), ("대치", "대치 러셀"), ("러셀대치", "대치 러셀")]

/-- The source's `for keyword, mapped in ACADEMY_MAPPING.items(): ... break`
loop: the first alias whose lower-cased form occurs in `norm` yields its
canonical name. -/
def mapLoop (norm : String) : List (String × String) → Option String
  | [] => none
  | (k, v) :: rest => if pyIn (pyLower k) norm then some v else mapLoop norm rest

/-- The academy-normalization tail of `run_header_ocr` (lines 336-343):
`academy.replace(" ", "").lower()`, then the alias scan; on no hit the
academy value is left as it came. -/
def normalizeAcademy (academy : String) : String :=
  match mapLoop (pyLower (stripSpaces academy)) ACADEMY_MAPPING with
  | some v => v
  | none => academy

/-- Characters of `s` that are not whitespace. -/
def stripWhitespaceAll (s : String) : String :=
  String.mk (s.data.filter (fun c => !c.isWhitespace))

/-- Modelled from the spec's words (§4.2 "strip whitespace, lower-case, then
scan a static ordered alias table"): normalization that strips all
whitespace, to be compared with `normalizeAcademy`, which the source builds
from `replace(" ", "")` and so strips only the space character. -/
def normalizeAcademySpec (academy : String) : String :=
  match ACADEMY_MAPPING.find?
      (fun kv => pyIn (pyLower kv.1) (pyLower (stripWhitespaceAll academy))) with
  | some kv => kv.2
  | none => academy

lemma mapLoop_eq_find (norm : String) :
    ∀ l : List (String × String),
      mapLoop norm l = (l.find? (fun kv => pyIn (pyLower kv.1) norm)).map Prod.snd := by
  intro l
  induction l with
  | nil => rfl
  | cons kv rest ih =>
    obtain ⟨k, v⟩ := kv
    by_cases h : pyIn (pyLower k) norm = true
    · simp [mapLoop, List.find?, h]
    · have h' : pyIn (pyLower k) norm = false := by
        cases hb : pyIn (pyLower k) norm
        · rfl
        · exact absurd hb h
      simp [mapLoop, List.find?, h', ih]

/-- C6 (amended): the source normalizes the academy by removing space
characters (only `' '`, not all whitespace) and lower-casing; the first
entry of the static ordered `ACADEMY_MAPPING` whose alias occurs in the
normalized string determines the canonical name (table order breaks ties,
no scoring); when no alias matches, the academy string passes through
unchanged. -/
theorem normalizeAcademy_first_alias (academy : String) :
    normalizeAcademy academy =
      match ACADEMY_MAPPING.find?
          (fun kv => pyIn (pyLower kv.1) (pyLower (stripSpaces academy))) with
      | some kv => kv.2
      | none => academy := by
  unfold normalizeAcademy
  rw [mapLoop_eq_find]
  cases ACADEMY_MAPPING.find?
      (fun kv => pyIn (pyLower kv.1) (pyLower (stripSpaces academy))) with
  | none => rfl
  | some kv => rfl

/-- C6 counterexample: the claim says normalization strips whitespace, but
the source's `replace(" ", "")` removes only space characters. On the
academy string `"분" TAB "당"` the source passes the value through unchanged,
while whitespace-stripping normalization (the spec's words) would strip the
tab and map it to the canonical `"분당 러셀"`. -/
theorem normalizeAcademy_tab_counterexample :
    normalizeAcademy "분\t당" = "분\t당" ∧
    normalizeAcademySpec "분\t당" = "분당 러셀" ∧
    normalizeAcademy "분\t당" ≠ normalizeAcademySpec "분\t당" := by
  refine ⟨by decide, by decide, by decide⟩

/-!  Roster loading and matching (`get_students_list`, lines 191-216, and
`find_student_row`, lines 219-228). -/

/-- One roster entry as `get_students_list` builds it: 1-based sheet row,
stripped name, stripped teacher cell. -/
structure Student where
  row : Nat
  name : String
  teacher : String
deriving DecidableEq

/-- The header-detection test of `get_students_list` (line 201):
`row and row[0] and row[0] not in ["학생이름", "이름", ""]`. -/
def isDataRow (row : List String) : Bool :=
  match row with
  | [] => false
  | c :: _ => c ≠ "" && !(["학생이름", "이름", ""].contains c)

/-- Index of the first row passing `isDataRow`, scanning from index `i`. -/
def findStart : List (List String) → Nat → Option Nat
  | [], _ => none
  | row :: rest, i => if isDataRow row then some i else findStart rest (i + 1)

/-- `data_start`: initialized to 1 and set to the first qualifying row's
index when the loop finds one (lines 198-203). -/
def dataStart (rows : List (List String)) : Nat :=
  (findStart rows 0).getD 1

/-- The collection loop of `get_students_list` (lines 205-211): rows from
`data_start` on, 1-based row numbers from `data_start + 1`, keeping rows
whose first cell is nonempty and does not strip to empty. -/
def collectStudents : List (List String) → Nat → List Student
  | [], _ => []
  | row :: rest, i =>
    match row with
    | [] => collectStudents rest (i + 1)
    | c :: cs =>
      if c ≠ "" && pyStrip c ≠ "" then
        ⟨i, pyStrip c, pyStrip (cs.getD 0 "")⟩ :: collectStudents rest (i + 1)
      else collectStudents rest (i + 1)

/-- `get_students_list` on the lesson worksheet's rows. -/
def get_students_list (rows : List (List String)) : List Student :=
  collectStudents (rows.drop (dataStart rows)) (dataStart rows + 1)

/-- The matching test of `find_student_row` (line 225):
`student_name in student["name"] or student["name"] in student_name`. -/
def rosterMatches (student_name : String) (s : Student) : Bool :=
  pyIn student_name s.name || pyIn s.name student_name

/-- The first-match loop of `find_student_row` (lines 223-228). -/
def findLoop (student_name : String) : List Student → Option Nat
  | [] => none
  | s :: rest =>
    if rosterMatches student_name s then some s.row
    else findLoop student_name rest

/-- `find_student_row`: first matching roster entry's row, else `None`. -/
def find_student_row (rows : List (List String)) (student_name : String) :
    Option Nat :=
  findLoop student_name (get_students_list rows)

lemma findLoop_eq_find (nm : String) :
    ∀ l : List Student,
      findLoop nm l = (l.find? (rosterMatches nm)).map Student.row := by
  intro l
  induction l with
  | nil => rfl
  | cons s rest ih =>
    by_cases h : rosterMatches nm s = true
    · simp [findLoop, List.find?, h]
    · have h' : rosterMatches nm s = false := by
        cases hb : rosterMatches nm s
        · rfl
        · exact absurd hb h
      simp [findLoop, List.find?, h', ih]

lemma findLoop_none (nm : String) :
    ∀ l : List Student, (∀ s ∈ l, rosterMatches nm s = false) →
      findLoop nm l = none := by
  intro l
  induction l with
  | nil => intro _; rfl
  | cons s rest ih =>
    intro h
    have hs := h s (List.mem_cons_self s rest)
    simp [findLoop, hs]
    exact ih (fun x hx => h x (List.mem_cons_of_mem s hx))

/-- C5 (amended): roster matching returns the row of the first entry in
roster order for which either string contains the other as a substring
(case-sensitive, no edit-distance ranking), and returns `none` when no
entry qualifies; but because the empty string is a substring of every
string, an empty recognized name matches the FIRST roster entry rather
than never matching (callers guard this by only invoking matching on a
nonempty name). -/
theorem find_student_row_spec :
    (∀ rows nm, find_student_row rows nm =
        ((get_students_list rows).find? (rosterMatches nm)).map Student.row)
    ∧ (∀ rows nm, (∀ s ∈ get_students_list rows, rosterMatches nm s = false) →
        find_student_row rows nm = none)
    ∧ (∀ rows s rest, get_students_list rows = s :: rest →
        find_student_row rows "" = some s.row) := by
  refine ⟨?_, ?_, ?_⟩
  · intro rows nm
    exact findLoop_eq_find nm (get_students_list rows)
  · intro rows nm h
    exact findLoop_none nm (get_students_list rows) h
  · intro rows s rest h
    unfold find_student_row
    rw [h]
    have hm : rosterMatches "" s = true := by
      unfold rosterMatches
      rw [pyIn_empty_left]
      rfl
    simp [findLoop, hm]

/-- C5 witness: on the one-row roster `[["김철수"]]` the name `"박영희"`
matches no entry and yields `none`, while the empty recognized name matches
the first entry (row 1). -/
theorem find_student_row_spec_witness :
    find_student_row [["김철수"]] "박영희" = none ∧
    find_student_row [["김철수"]] "" = some 1 :=
  ⟨find_student_row_spec.2.1 [["김철수"]] "박영희" (by decide),
   find_student_row_spec.2.2 [["김철수"]] ⟨1, "김철수", ""⟩ [] (by decide)⟩

/-- C5 counterexample: the claim says an empty recognized name never matches
any roster entry, but Python's substring test accepts the empty string, so
`find_student_row` returns the first data row (sheet row 2 here) for the
empty name instead of `None`. -/
theorem find_student_row_empty_matches :
    find_student_row [["이름", "담임"], ["김철수", "T"]] "" = some 2 := by
  decide

/-!  Reference-material lookup (`get_lesson_prompt`, lines 139-188). -/

/-- The reference bundle a matched row yields (lines 165-170). -/
structure Bundle where
  question : String
  passage : String
  rubric : String
  model_answer : String
deriving DecidableEq

/-- A lesson/question cell as the source reads it:
`int(row[i]) if row[i] else 0` — an empty cell is 0 without parsing, a
non-integer cell raises `ValueError` (modelled `none`). -/
def cellInt (s : String) : Option Int :=
  if s = "" then some 0 else pyInt? s

/-- The (lesson, question) key of a data row: `none` when the row has fewer
than two cells (skipped by the `len(row) >= 2` guard, line 159) or when
either cell fails to parse as an integer (the `except ValueError: continue`
path, lines 180-181). -/
def rowKey (row : List String) : Option (Int × Int) :=
  if 2 ≤ row.length then
    match cellInt (row.getD 0 ""), cellInt (row.getD 1 "") with
    | some a, some b => some (a, b)
    | _, _ => none
  else none

/-- The bundle built from a matched row, short rows padded with empty
strings (`row[i] if len(row) > i else ""`, lines 166-169). -/
def bundleOfRow (row : List String) : Bundle :=
  ⟨row.getD 2 "", row.getD 3 "", row.getD 4 "", row.getD 5 ""⟩

/-- The row scan of `get_lesson_prompt` (lines 158-181): first row whose
integer pair equals the requested one wins; short rows and rows with
non-integer lesson/question cells are skipped. -/
def scanRows (lesson question_num : Int) : List (List String) → Option Bundle
  | [] => none
  | row :: rest =>
    match rowKey row with
    | some k =>
      if k = (lesson, question_num) then some (bundleOfRow row)
      else scanRows lesson question_num rest
    | none => scanRows lesson question_num rest

/-- `get_lesson_prompt` on the reference sheet's rows: the scan starts after
the header row (`all_data[1:]`, line 158); on no match the source returns
the empty dict `{}` (modelled `none`) and surfaces the warning of line 183
(the Bool). -/
def get_lesson_prompt (rows : List (List String)) (lesson question_num : Int) :
    Option Bundle × Bool :=
  match scanRows lesson question_num (rows.drop 1) with
  | some b => (some b, false)
  | none => (none, true)

/-- How downstream code reads the returned dict: `prompt_data.get(key, "")`,
so the empty dict reads as a bundle of four empty strings. -/
def bundleView : Option Bundle → Bundle
  | some b => b
  | none => ⟨"", "", "", ""⟩

lemma scanRows_eq_find (lesson q : Int) :
    ∀ rs : List (List String),
      scanRows lesson q rs =
        (rs.find? (fun row => decide (rowKey row = some (lesson, q)))).map
          bundleOfRow := by
  intro rs
  induction rs with
  | nil => rfl
  | cons row rest ih =>
    by_cases h : rowKey row = some (lesson, q)
    · have hd : (decide (rowKey row = some (lesson, q))) = true := by
        simp [h]
      simp [scanRows, List.find?, h, hd]
    · have hd : (decide (rowKey row = some (lesson, q))) = false := by
        simp [h]
      cases hk : rowKey row with
      | none => simp [scanRows, List.find?, hd, hk, ih]
      | some k =>
        have hne : ¬ k = (lesson, q) := by
          intro he
          exact h (by rw [hk, he])
        simp [scanRows, List.find?, hd, hk, hne, ih]

lemma scanRows_none (lesson q : Int) :
    ∀ rs : List (List String),
      (∀ row ∈ rs, rowKey row ≠ some (lesson, q)) →
        scanRows lesson q rs = none := by
  intro rs
  induction rs with
  | nil => intro _; rfl
  | cons row rest ih =>
    intro h
    have hr := h row (List.mem_cons_self row rest)
    have hrest := ih (fun x hx => h x (List.mem_cons_of_mem row hx))
    cases hk : rowKey row with
    | none => simp [scanRows, hk, hrest]
    | some k =>
      have hne : ¬ k = (lesson, q) := by
        intro he
        exact hr (by rw [hk, he])
      simp [scanRows, hk, hne, hrest]

lemma get_lesson_prompt_fst (rows : List (List String)) (lesson q : Int) :
    (get_lesson_prompt rows lesson q).1 = scanRows lesson q (rows.drop 1) := by
  unfold get_lesson_prompt
  cases scanRows lesson q (rows.drop 1) with
  | none => rfl
  | some b => rfl

/-- C9: reference lookup scans the rows after the header row and returns the
bundle of the first row whose integer pair equals `(lesson, question_num)`
exactly; a row whose lesson/question cells do not both parse as integers is
skipped without error; and when no row matches, the result is the empty
bundle (all four fields empty) together with the non-fatal no-reference
warning. -/
theorem get_lesson_prompt_spec :
    (∀ rows lesson q, (get_lesson_prompt rows lesson q).1 =
        ((rows.drop 1).find?
            (fun row => decide (rowKey row = some (lesson, q)))).map
          bundleOfRow)
    ∧ (∀ (lesson q : Int) row rest, rowKey row = none →
        scanRows lesson q (row :: rest) = scanRows lesson q rest)
    ∧ (∀ rows lesson q, (∀ row ∈ rows.drop 1, rowKey row ≠ some (lesson, q)) →
        get_lesson_prompt rows lesson q = (none, true) ∧
        bundleView (get_lesson_prompt rows lesson q).1 = ⟨"", "", "", ""⟩) := by
  refine ⟨?_, ?_, ?_⟩
  · intro rows lesson q
    rw [get_lesson_prompt_fst]
    exact scanRows_eq_find lesson q (rows.drop 1)
  · intro lesson q row rest h
    simp [scanRows, h]
  · intro rows lesson q h
    have hs : scanRows lesson q (rows.drop 1) = none :=
      scanRows_none lesson q (rows.drop 1) h
    constructor
    · unfold get_lesson_prompt
      rw [hs]
    · rw [get_lesson_prompt_fst, hs]
      rfl

/-- C9 witness: on a small reference sheet the row `["x", "1"]` (non-integer
lesson cell) is skipped, and a lookup that matches no row yields the empty
bundle with the warning. -/
theorem get_lesson_prompt_spec_witness :
    scanRows 5 1 (["x", "1"] :: [["2", "9", "A", "B", "C", "D"]]) =
      scanRows 5 1 [["2", "9", "A", "B", "C", "D"]] ∧
    (get_lesson_prompt [["강", "문항"], ["x", "1"], ["2", "9", "A", "B", "C", "D"]] 5 1 =
        (none, true) ∧
      bundleView
          (get_lesson_prompt [["강", "문항"], ["x", "1"], ["2", "9", "A", "B", "C", "D"]] 5 1).1 =
        ⟨"", "", "", ""⟩) :=
  ⟨get_lesson_prompt_spec.2.1 5 1 ["x", "1"] [["2", "9", "A", "B", "C", "D"]] (by decide),
   get_lesson_prompt_spec.2.2 [["강", "문항"], ["x", "1"], ["2", "9", "A", "B", "C", "D"]] 5 1
     (by decide)⟩

/-!  The two-stage OCR/restoration process (`run_naver_ocr`, lines 382-450,
`run_gemini_restore`, lines 453-587, `run_answer_ocr`, lines 590-632). -/

/-- What the CLOVA OCR call yields for one image: the service's ordered text
fragments, or a failure (the `except` branches, lines 447-450, whose
formatted message is carried whole and is never empty in the source). -/
inductive NaverOutcome where
  | ok (fields : List String)
  | fail (msg : String)
deriving DecidableEq

/-- What the Gemini restoration call yields: no API key (lines 472-473), a
raised exception (lines 586-587), or the response text (already stripped,
line 583). -/
inductive GeminiEnv where
  | noKey
  | exc (msg : String)
  | ok (text : String)
deriving DecidableEq

/-- The fragment concatenation of `run_naver_ocr` (lines 435-444): nonempty
`inferText` fields joined with single spaces. -/
def joinFields (fields : List String) : String :=
  String.intercalate " " (fields.filter (fun t => t ≠ ""))

/-- `run_naver_ocr`: `(raw_text, error)`. -/
def run_naver_ocr : NaverOutcome → String × Option String
  | .ok fields => (joinFields fields, none)
  | .fail msg => ("", some msg)

/-- `run_gemini_restore`: `(restored_text, error)`. On a missing key or a
service exception the stage-1 `raw_ocr_text` itself comes back, with a
warning message. -/
def run_gemini_restore (raw_ocr_text : String) : GeminiEnv → String × Option String
  | .noKey => (raw_ocr_text, some "GOOGLE_API_KEY 없음 - 원본 OCR 텍스트 반환")
  | .exc m => (raw_ocr_text, some ("Gemini 복원 오류: " ++ m))
  | .ok t => (t, none)

/-- The result quadruple of `run_answer_ocr`: the returned
`(text, confidence, error)` triple, plus the `st.warning` the function
surfaces when restoration reported an error (line 617), made explicit. -/
structure OcrResult where
  text : String
  conf : Nat
  error : Option String
  warn : Option String
deriving DecidableEq

/-- `run_answer_ocr`: stage 1 (CLOVA) then stage 2 (Gemini restore). A
stage-1 error returns `("", 0.0, error)` at line 608 with no restoration;
otherwise the restored text is returned with the fixed success confidence
0.9 and no error (line 632), a restoration failure surfacing only as a
warning. Confidences are the two source constants 0.0 and 0.9, embedded as
integer percentages (0 and 90). -/
def run_answer_ocr (nv : NaverOutcome) (g : GeminiEnv) : OcrResult :=
  match run_naver_ocr nv with
  | (_, some e) => ⟨"", 0, some e, none⟩
  | (raw, none) =>
    ⟨(run_gemini_restore raw g).1, 90, none, (run_gemini_restore raw g).2⟩

/-- C3: when stage-1 OCR succeeds with `rawText` and the restoration service
errors, `run_answer_ocr` returns exactly `rawText` as its text, with no
error (the failure is only a surfaced warning) and the fixed success
confidence. -/
theorem restore_failure_returns_raw (fields : List String) (m : String) :
    run_answer_ocr (.ok fields) (.exc m) =
      ⟨joinFields fields, 90, none, some ("Gemini 복원 오류: " ++ m)⟩ ∧
    run_gemini_restore (joinFields fields) (.exc m) =
      (joinFields fields, some ("Gemini 복원 오류: " ++ m)) :=
  ⟨rfl, rfl⟩

/-!  The page-pairing pipeline (`process_pdf`, lines 675-848). -/

/-- What one `run_header_ocr` call yields for a page: either the error-dict
path (request failure, malformed response — lines 279, 346-347) or the
parsed identity fields as the pipeline reads them
(`header_info.get("name", "")`, `header_info.get("academy", "")`, with the
academy already alias-normalized). -/
inductive HeaderOutcome where
  | err (msg : String)
  | ok (name academy : String)
deriving DecidableEq

/-- The spreadsheet as the pipeline reads it: the reference sheet's rows and
each lesson worksheet's rows. -/
structure SheetData where
  refRows : List (List String)
  rosterOf : Int → List (List String)

/-- The `current_student_info` dict (lines 732-736). -/
structure Ctx where
  name : String
  lesson : Int
  academy : String
deriving DecidableEq

/-- An emitted answer record (lines 770-782 and 829-841). The source also
stores the page's image bytes; images are opaque and omitted here. -/
structure AnswerRecord where
  name : String
  lesson : Int
  question_num : Int
  academy : String
  row : Option Nat
  prompt_data : Option Bundle
  pages : List Nat
  status : String
  text : String
  confidence : Nat
deriving DecidableEq

/-- One page's external-service environment. The pipeline calls
`run_header_ocr` twice on an odd page (lines 715 and 721); `header1` is the
first call's result and `header2` the second, which overwrites it. -/
structure PageEnv where
  header1 : HeaderOutcome
  header2 : HeaderOutcome
  naver : NaverOutcome
  gemini : GeminiEnv
deriving DecidableEq

/-- What processing one page produces: the context the loop carries on, the
records appended, how many header-recognition requests were issued for the
page, and the `st.warning` messages surfaced. -/
structure StepOut where
  ctx : Option Ctx
  recs : List AnswerRecord
  headerCalls : Nat
  warns : List String

/-- Python truthiness of the `row` value at `if student_row` /
`if student['row']` (rows are 1-based, so 0 never occurs, but `0` would be
falsy). -/
def pyTruthyRow : Option Nat → Bool
  | none => false
  | some r => r ≠ 0

/-- The student context an odd page establishes (lines 724-736): on a header
error the name and academy are the empty string, and the context is set
either way. -/
def ctxFromHeader (lesson : Int) : HeaderOutcome → Ctx
  | .err _ => ⟨"", lesson, ""⟩
  | .ok n a => ⟨n, lesson, a⟩

/-- The header-failure warning of line 725. -/
def hdrWarns : HeaderOutcome → List String
  | .err m => ["헤더 인식 실패: " ++ m]
  | .ok _ _ => []

/-- The guarded roster lookup (`if spreadsheet and student_name:`,
lines 747-748 and 806-807). -/
def rowLookup (sheet : Option SheetData) (lesson : Int) (nm : String) :
    Option Nat :=
  match sheet with
  | some s => if nm ≠ "" then find_student_row (s.rosterOf lesson) nm else none
  | none => none

/-- The guarded reference lookup (`if spreadsheet:`, lines 741-743 and
800-802); without a spreadsheet the prompt data stays the empty dict. -/
def promptLookup (sheet : Option SheetData) (lesson question_num : Int) :
    Option Bundle :=
  match sheet with
  | some s => (get_lesson_prompt s.refRows lesson question_num).1
  | none => none

/-- Record emission for one question slot: on an answer-OCR error the slot
is dropped (`if error: st.error(...)` with no append, lines 764-765 and
823-824); otherwise one record is appended. -/
def recOf (nm : String) (lesson question_num : Int) (academy : String)
    (row : Option Nat) (pd : Option Bundle) (pageNum : Nat) (ans : OcrResult) :
    List AnswerRecord :=
  match ans.error with
  | some _ => []
  | none =>
    [⟨nm, lesson, question_num, academy, row, pd, [pageNum],
      (if pyTruthyRow row then ("matched") else ("unmatched")), ans.text, ans.conf⟩]

/-- The odd-page branch (lines 712-783): header OCR is run twice (lines 715
and 721, hence `headerCalls = 2`) and the second result is used; the student
context is set unconditionally; then reference lookup, roster lookup and
question-1 answer OCR. -/
def oddStep (sheet : Option SheetData) (lesson : Int) (pageNum : Nat)
    (env : PageEnv) : StepOut :=
  ⟨some (ctxFromHeader lesson env.header2),
   recOf (ctxFromHeader lesson env.header2).name lesson 1
     (ctxFromHeader lesson env.header2).academy
     (rowLookup sheet lesson (ctxFromHeader lesson env.header2).name)
     (promptLookup sheet lesson 1) pageNum
     (run_answer_ocr env.naver env.gemini),
   2,
   hdrWarns env.header2 ++ (run_answer_ocr env.naver env.gemini).warn.toList⟩

/-- The even-page branch (lines 785-842): with no context the page is
skipped with the line-788 warning (the context is left as is, i.e. `none`);
with a context, question-2 processing reuses the context's name and
academy. -/
def evenStep (sheet : Option SheetData) (lesson : Int) (pageNum : Nat)
    (env : PageEnv) : Option Ctx → StepOut
  | none => ⟨none, [], 0, ["학생 정보 없음 (이전 홀수 페이지 실패)"]⟩
  | some c =>
    ⟨some c,
     recOf c.name lesson 2 c.academy (rowLookup sheet lesson c.name)
       (promptLookup sheet lesson 2) pageNum
       (run_answer_ocr env.naver env.gemini),
     0,
     (run_answer_ocr env.naver env.gemini).warn.toList⟩

/-- One iteration of the page loop: `is_odd = (page_num % 2 == 1)`
(line 708) selects the branch. -/
def processStep (sheet : Option SheetData) (lesson : Int) (pageNum : Nat)
    (env : PageEnv) (ctx : Option Ctx) : StepOut :=
  if pageNum % 2 = 1 then oddStep sheet lesson pageNum env
  else evenStep sheet lesson pageNum env ctx

/-- The page loop from page `pageNum` on, carrying `current_student_info`. -/
def processFrom (sheet : Option SheetData) (lesson : Int) :
    Nat → Option Ctx → List PageEnv → List AnswerRecord
  | _, _, [] => []
  | pageNum, ctx, e :: es =>
    (processStep sheet lesson pageNum e ctx).recs ++
      processFrom sheet lesson (pageNum + 1)
        (processStep sheet lesson pageNum e ctx).ctx es

/-- `process_pdf`: pages are processed in order, 1-based, starting with no
student context (line 701). -/
def process_pdf (sheet : Option SheetData) (lesson : Int)
    (envs : List PageEnv) : List AnswerRecord :=
  processFrom sheet lesson 1 none envs

lemma processStep_odd (sheet : Option SheetData) (lesson : Int) (pageNum : Nat)
    (env : PageEnv) (ctx : Option Ctx) (h : pageNum % 2 = 1) :
    processStep sheet lesson pageNum env ctx = oddStep sheet lesson pageNum env := by
  unfold processStep
  rw [if_pos h]

lemma processStep_even (sheet : Option SheetData) (lesson : Int) (pageNum : Nat)
    (env : PageEnv) (ctx : Option Ctx) (h : ¬ pageNum % 2 = 1) :
    processStep sheet lesson pageNum env ctx =
      evenStep sheet lesson pageNum env ctx := by
  unfold processStep
  rw [if_neg h]

lemma recOf_mem {nm : String} {lesson question_num : Int} {academy : String}
    {row : Option Nat} {pd : Option Bundle} {pageNum : Nat} {ans : OcrResult}
    {r : AnswerRecord}
    (h : r ∈ recOf nm lesson question_num academy row pd pageNum ans) :
    r.name = nm ∧ r.lesson = lesson ∧ r.question_num = question_num ∧
      r.academy = academy ∧ r.pages = [pageNum] := by
  unfold recOf at h
  cases hE : ans.error with
  | some e =>
    rw [hE] at h
    simp at h
  | none =>
    rw [hE] at h
    simp at h
    subst h
    exact ⟨rfl, rfl, rfl, rfl, rfl⟩

/-- C7 (the spec calls the duplicate a bug): on every odd page the pipeline
issues the header-extraction recognition request twice, not once — the
calls at lines 715 and 721, the second result overwriting the first. -/
theorem odd_page_header_extracted_twice (sheet : Option SheetData)
    (lesson : Int) (k : Nat) (env : PageEnv) (ctx : Option Ctx) :
    (processStep sheet lesson (2 * k + 1) env ctx).headerCalls = 2 := by
  rw [processStep_odd sheet lesson (2 * k + 1) env ctx (by omega)]
  rfl

/-- C4: a stage-1 (raw OCR) failure makes `run_answer_ocr` return empty
text, confidence 0 and the error; the result does not depend on the
restoration service (no restoration is attempted); no record is emitted for
that question slot; and the page loop continues with the next page. -/
theorem naver_failure_aborts_slot (sheet : Option SheetData) (lesson : Int)
    (pageNum : Nat) (ctx : Option Ctx) (h1 h2 : HeaderOutcome) (g : GeminiEnv)
    (msg : String) (es : List PageEnv) :
    run_answer_ocr (.fail msg) g = ⟨"", 0, some msg, none⟩ ∧
    (∀ g', run_answer_ocr (.fail msg) g' = run_answer_ocr (.fail msg) g) ∧
    (processStep sheet lesson pageNum ⟨h1, h2, .fail msg, g⟩ ctx).recs = [] ∧
    processFrom sheet lesson pageNum ctx (⟨h1, h2, .fail msg, g⟩ :: es) =
      processFrom sheet lesson (pageNum + 1)
        (processStep sheet lesson pageNum ⟨h1, h2, .fail msg, g⟩ ctx).ctx es := by
  have hrecs :
      (processStep sheet lesson pageNum ⟨h1, h2, .fail msg, g⟩ ctx).recs = [] := by
    by_cases hp : pageNum % 2 = 1
    · rw [processStep_odd _ _ _ _ _ hp]
      rfl
    · rw [processStep_even _ _ _ _ _ hp]
      cases ctx with
      | none => rfl
      | some c => rfl
  refine ⟨rfl, fun g' => rfl, hrecs, ?_⟩
  show (processStep sheet lesson pageNum ⟨h1, h2, .fail msg, g⟩ ctx).recs ++ _ = _
  rw [hrecs]
  rfl

/-- C1 (amended): when an odd page's header extraction fails, the pipeline
surfaces the header-failure warning but SETS the student context, with
empty name and academy, rather than leaving it unset; the immediately
following even page is therefore processed against that context and, when
its raw OCR succeeds, emits a question-2 record with empty name and
academy. -/
theorem header_failure_sets_empty_context (sheet : Option SheetData)
    (lesson : Int) (k : Nat) (ctx : Option Ctx) (h1 : HeaderOutcome)
    (msg : String) (nv : NaverOutcome) (g : GeminiEnv)
    (h1' h2' : HeaderOutcome) (fields : List String) (g' : GeminiEnv) :
    ("헤더 인식 실패: " ++ msg) ∈
        (processStep sheet lesson (2 * k + 1) ⟨h1, .err msg, nv, g⟩ ctx).warns ∧
    (processStep sheet lesson (2 * k + 1) ⟨h1, .err msg, nv, g⟩ ctx).ctx =
      some ⟨"", lesson, ""⟩ ∧
    ∃ rec2,
      (processStep sheet lesson (2 * k + 2) ⟨h1', h2', .ok fields, g'⟩
          (processStep sheet lesson (2 * k + 1) ⟨h1, .err msg, nv, g⟩ ctx).ctx).recs =
        [rec2] ∧
      rec2.question_num = 2 ∧ rec2.name = "" ∧ rec2.academy = "" ∧
      rec2.pages = [2 * k + 2] := by
  rw [processStep_odd sheet lesson (2 * k + 1) ⟨h1, .err msg, nv, g⟩ ctx (by omega)]
  refine ⟨List.mem_append_left _ (List.mem_singleton.mpr rfl), rfl, ?_⟩
  rw [processStep_even sheet lesson (2 * k + 2) ⟨h1', h2', .ok fields, g'⟩
    (oddStep sheet lesson (2 * k + 1) ⟨h1, .err msg, nv, g⟩).ctx (by omega)]
  show ∃ rec2,
      (evenStep sheet lesson (2 * k + 2) ⟨h1', h2', .ok fields, g'⟩
          (some ⟨"", lesson, ""⟩)).recs = [rec2] ∧ _
  have hans :
      (run_answer_ocr (.ok fields) g').error = none := by
    cases g' <;> rfl
  refine ⟨⟨"", lesson, 2, "", rowLookup sheet lesson "",
    promptLookup sheet lesson 2, [2 * k + 2],
    (if pyTruthyRow (rowLookup sheet lesson "") then ("matched") else ("unmatched")),
    (run_answer_ocr (.ok fields) g').text,
    (run_answer_ocr (.ok fields) g').conf⟩, ?_, rfl, rfl, rfl, rfl⟩
  show recOf "" lesson 2 "" (rowLookup sheet lesson "")
      (promptLookup sheet lesson 2) (2 * k + 2)
      (run_answer_ocr (.ok fields) g') = _
  unfold recOf
  rw [hans]

lemma processStep_lesson (sheet : Option SheetData) (lesson : Int)
    (pageNum : Nat) (env : PageEnv) (ctx : Option Ctx) {r : AnswerRecord}
    (h : r ∈ (processStep sheet lesson pageNum env ctx).recs) :
    r.lesson = lesson := by
  by_cases hp : pageNum % 2 = 1
  · rw [processStep_odd _ _ _ _ _ hp] at h
    exact (recOf_mem h).2.1
  · rw [processStep_even _ _ _ _ _ hp] at h
    cases ctx with
    | none => simp [evenStep] at h
    | some c => exact (recOf_mem h).2.1

lemma processFrom_lesson (sheet : Option SheetData) (lesson : Int) :
    ∀ (es : List PageEnv) (pageNum : Nat) (ctx : Option Ctx) (r : AnswerRecord),
      r ∈ processFrom sheet lesson pageNum ctx es → r.lesson = lesson := by
  intro es
  induction es with
  | nil =>
    intro pn ctx r h
    simp [processFrom] at h
  | cons e es ih =>
    intro pn ctx r h
    simp only [processFrom] at h
    rcases List.mem_append.1 h with hL | hR
    · exact processStep_lesson _ _ _ _ _ hL
    · exact ih _ _ _ hR

lemma processFrom_even_fields (sheet : Option SheetData) (lesson : Int) :
    ∀ es : List PageEnv,
      (∀ (pn : Nat) (ctx : Option Ctx) (j : Nat) (r : AnswerRecord),
        pn % 2 = 1 → r ∈ processFrom sheet lesson pn ctx es → r.pages = [j] →
          j % 2 = 0 →
          r.question_num = 2 ∧ pn + 1 ≤ j ∧ ∃ e, es.get? (j - pn - 1) = some e ∧
            r.name = (ctxFromHeader lesson e.header2).name ∧
            r.academy = (ctxFromHeader lesson e.header2).academy)
      ∧ (∀ (pn : Nat) (c : Ctx) (j : Nat) (r : AnswerRecord),
        pn % 2 = 0 → r ∈ processFrom sheet lesson pn (some c) es →
          r.pages = [j] → j % 2 = 0 →
          r.question_num = 2 ∧
            ((j = pn ∧ r.name = c.name ∧ r.academy = c.academy) ∨
              (pn + 2 ≤ j ∧ ∃ e, es.get? (j - pn - 1) = some e ∧
                r.name = (ctxFromHeader lesson e.header2).name ∧
                r.academy = (ctxFromHeader lesson e.header2).academy))) := by
  intro es
  induction es with
  | nil =>
    constructor
    · intro pn ctx j r _ h _ _
      simp [processFrom] at h
    · intro pn c j r _ h _ _
      simp [processFrom] at h
  | cons e es ih =>
    constructor
    · intro pn ctx j r hodd hmem hp hj
      simp only [processFrom] at hmem
      rcases List.mem_append.1 hmem with hL | hR
      · rw [processStep_odd _ _ _ _ _ hodd] at hL
        have hflds := recOf_mem
          (show r ∈ recOf (ctxFromHeader lesson e.header2).name lesson 1
              (ctxFromHeader lesson e.header2).academy
              (rowLookup sheet lesson (ctxFromHeader lesson e.header2).name)
              (promptLookup sheet lesson 1) pn
              (run_answer_ocr e.naver e.gemini) from hL)
        have hpg := hflds.2.2.2.2
        rw [hp] at hpg
        have hjp : j = pn := by simpa using hpg
        exfalso
        omega
      · have hctx : (processStep sheet lesson pn e ctx).ctx =
            some (ctxFromHeader lesson e.header2) := by
          rw [processStep_odd _ _ _ _ _ hodd]
          rfl
        rw [hctx] at hR
        have heven : (pn + 1) % 2 = 0 := by omega
        obtain ⟨hq2, hcase⟩ :=
          ih.2 (pn + 1) (ctxFromHeader lesson e.header2) j r heven hR hp hj
        rcases hcase with ⟨hje, hn, ha⟩ | ⟨hge, e', hget, hn, ha⟩
        · refine ⟨hq2, by omega, e, ?_, hn, ha⟩
          have h0 : j - pn - 1 = 0 := by omega
          rw [h0]
          rfl
        · refine ⟨hq2, by omega, e', ?_, hn, ha⟩
          have hidx : j - pn - 1 = (j - (pn + 1) - 1) + 1 := by omega
          rw [hidx]
          exact hget
    · intro pn c j r heven hmem hp hj
      have hne : ¬ pn % 2 = 1 := by omega
      simp only [processFrom] at hmem
      rcases List.mem_append.1 hmem with hL | hR
      · rw [processStep_even _ _ _ _ _ hne] at hL
        have hflds := recOf_mem
          (show r ∈ recOf c.name lesson 2 c.academy
              (rowLookup sheet lesson c.name) (promptLookup sheet lesson 2) pn
              (run_answer_ocr e.naver e.gemini) from hL)
        have hpg := hflds.2.2.2.2
        rw [hp] at hpg
        have hjp : j = pn := by simpa using hpg
        exact ⟨hflds.2.2.1, Or.inl ⟨hjp, hflds.1, hflds.2.2.2.1⟩⟩
      · have hctx : (processStep sheet lesson pn e (some c)).ctx = some c := by
          rw [processStep_even _ _ _ _ _ hne]
          rfl
        rw [hctx] at hR
        have hodd1 : (pn + 1) % 2 = 1 := by omega
        obtain ⟨hq2, hle, e', hget, hn, ha⟩ :=
          ih.1 (pn + 1) (some c) j r hodd1 hR hp hj
        refine ⟨hq2, Or.inr ⟨by omega, e', ?_, hn, ha⟩⟩
        have hidx : j - pn - 1 = (j - (pn + 1) - 1) + 1 := by omega
        rw [hidx]
        exact hget

/-- C2: every record the pipeline emits for an even page has
`question_num = 2`, and its name, lesson and academy are exactly those of
the student context established by the immediately preceding odd page (the
page whose environment sits at index `j - 2` of the page list, i.e. page
`j - 1`). -/
theorem even_record_matches_context (sheet : Option SheetData) (lesson : Int)
    (envs : List PageEnv) (j : Nat) (r : AnswerRecord)
    (hmem : r ∈ process_pdf sheet lesson envs) (hp : r.pages = [j])
    (hj : j % 2 = 0) :
    r.question_num = 2 ∧ r.lesson = lesson ∧ 2 ≤ j ∧
      ∃ e, envs.get? (j - 2) = some e ∧
        r.name = (ctxFromHeader lesson e.header2).name ∧
        r.lesson = (ctxFromHeader lesson e.header2).lesson ∧
        r.academy = (ctxFromHeader lesson e.header2).academy := by
  obtain ⟨hq2, hle, e, hget, hn, ha⟩ :=
    (processFrom_even_fields sheet lesson envs).1 1 none j r (by decide) hmem hp hj
  have hl : r.lesson = lesson := processFrom_lesson sheet lesson envs 1 none r hmem
  have hcl : (ctxFromHeader lesson e.header2).lesson = lesson := by
    cases e.header2 <;> rfl
  refine ⟨hq2, hl, by omega, e, ?_, hn, by rw [hcl]; exact hl, ha⟩
  have hidx : j - 2 = j - 1 - 1 := by omega
  rw [hidx]
  exact hget

/-- Odd-page environment of the C2 witness document. -/
def cenvOdd : PageEnv :=
  ⟨.ok "김철수" "분당 러셀", .ok "김철수" "분당 러셀", .ok ["가"], .ok "답안1"⟩

/-- Even-page environment of the C2 witness document. -/
def cenvEven : PageEnv := ⟨.err "u", .err "u", .ok ["나"], .ok "답안2"⟩

/-- The record page 2 of the C2 witness document emits. -/
def crecEven : AnswerRecord :=
  ⟨"김철수", 2, 2, "분당 러셀", none, none, [2], "unmatched", "답안2", 90⟩

/-- C2 witness: on a concrete two-page document the page-2 record carries
question 2 and the page-1 header's name and academy. -/
theorem even_record_matches_context_witness :
    crecEven.question_num = 2 ∧ crecEven.lesson = 2 ∧ 2 ≤ 2 ∧
      ∃ e, [cenvOdd, cenvEven].get? (2 - 2) = some e ∧
        crecEven.name = (ctxFromHeader 2 e.header2).name ∧
        crecEven.lesson = (ctxFromHeader 2 e.header2).lesson ∧
        crecEven.academy = (ctxFromHeader 2 e.header2).academy :=
  even_record_matches_context none 2 [cenvOdd, cenvEven] 2 crecEven
    (by decide) (by decide) (by decide)

/-- Page-1 environment of the C1 counterexample: header extraction fails and
the question-1 raw OCR also fails. -/
def cenvHdrFail : PageEnv := ⟨.err "x", .err "x", .fail "y", .ok "t"⟩

/-- Page-2 environment of the C1 counterexample: answer OCR succeeds, the
restoration service errors (falling back to the raw text). -/
def cenvSecond : PageEnv := ⟨.err "u", .err "u", .ok ["안녕", "하세요"], .exc "z"⟩

/-- C1 counterexample: after page 1's header extraction fails, the student
context is SET (to empty name and academy), not unset, and the following
even page DOES emit a question-2 record — the pipeline's output of this
two-page document is exactly that one record, contradicting the claim that
the even page yields no record under an unset context. -/
theorem header_failure_counterexample :
    (processStep none 2 1 cenvHdrFail none).ctx = some ⟨"", 2, ""⟩ ∧
    process_pdf none 2 [cenvHdrFail, cenvSecond] =
      [⟨"", 2, 2, "", none, none, [2], "unmatched", "안녕 하세요", 90⟩] :=
  ⟨by decide, by decide⟩

/-!  Crop-region configuration (session defaults, lines 66-85; the slider
update path of `main`, lines 925-936 for question 1 and 953-964 for
question 2; the coordinate read in `crop_answer_area`, lines 363-367). -/

/-- A crop rectangle as stored in the session state: four ratios of the
page's width/height. -/
structure CropRegion where
  left : ℚ
  top : ℚ
  right : ℚ
  bottom : ℚ
deriving DecidableEq

/-- The two per-question crop regions held in the session state
(`crop_coords_q1`, `crop_coords_q2`). -/
structure CropState where
  q1 : CropRegion
  q2 : CropRegion
deriving DecidableEq

/-- The session defaults (lines 66-82). -/
def defaultCropState : CropState :=
  ⟨⟨3/100, 15/100, 66/100, 74/100⟩, ⟨3/100, 7/100, 66/100, 84/100⟩⟩

/-- The coordinate selection of `crop_answer_area` (lines 363-367): the
`get` of the crop-region store. -/
def cropCoordsFor (st : CropState) (is_page1 : Bool) : CropRegion :=
  if is_page1 then st.q1 else st.q2

/-- The percentage bounds the four `st.slider` calls enforce on an attempted
update (lines 925-928 and 953-956): left 0-30, top 0-30, right 50-100,
bottom 70-100. A value outside its slider's range cannot be submitted. -/
def sliderOk (l t r b : ℤ) : Prop :=
  0 ≤ l ∧ l ≤ 30 ∧ 0 ≤ t ∧ t ≤ 30 ∧ 50 ≤ r ∧ r ≤ 100 ∧ 70 ≤ b ∧ b ≤ 100

instance (l t r b : ℤ) : Decidable (sliderOk l t r b) := by
  unfold sliderOk
  infer_instance

/-- The question-1 crop update (lines 925-936): slider percentages, stored
divided by 100; an attempted update outside the slider bounds is rejected
(`none`). -/
def setCropQ1 (st : CropState) (l t r b : ℤ) : Option CropState :=
  if sliderOk l t r b then
    some { st with q1 := ⟨(l : ℚ)/100, (t : ℚ)/100, (r : ℚ)/100, (b : ℚ)/100⟩ }
  else none

/-- The question-2 crop update (lines 953-964), same bounds. -/
def setCropQ2 (st : CropState) (l t r b : ℤ) : Option CropState :=
  if sliderOk l t r b then
    some { st with q2 := ⟨(l : ℚ)/100, (t : ℚ)/100, (r : ℚ)/100, (b : ℚ)/100⟩ }
  else none

/-- The validity predicate the claim states: `left < right`, `top < bottom`,
all four coordinates in `[0, 1]`. -/
def validRegion (cr : CropRegion) : Prop :=
  cr.left < cr.right ∧ cr.top < cr.bottom ∧
  0 ≤ cr.left ∧ cr.left ≤ 1 ∧ 0 ≤ cr.top ∧ cr.top ≤ 1 ∧
  0 ≤ cr.right ∧ cr.right ≤ 1 ∧ 0 ≤ cr.bottom ∧ cr.bottom ≤ 1

lemma sliderOk_valid {l t r b : ℤ} (h : sliderOk l t r b) :
    validRegion ⟨(l : ℚ)/100, (t : ℚ)/100, (r : ℚ)/100, (b : ℚ)/100⟩ := by
  obtain ⟨h1, h2, h3, h4, h5, h6, h7, h8⟩ := h
  have c1 : (0 : ℚ) ≤ (l : ℚ) := by exact_mod_cast h1
  have c2 : (l : ℚ) ≤ 30 := by exact_mod_cast h2
  have c3 : (0 : ℚ) ≤ (t : ℚ) := by exact_mod_cast h3
  have c4 : (t : ℚ) ≤ 30 := by exact_mod_cast h4
  have c5 : (50 : ℚ) ≤ (r : ℚ) := by exact_mod_cast h5
  have c6 : (r : ℚ) ≤ 100 := by exact_mod_cast h6
  have c7 : (70 : ℚ) ≤ (b : ℚ) := by exact_mod_cast h7
  have c8 : (b : ℚ) ≤ 100 := by exact_mod_cast h8
  refine ⟨by linarith, by linarith, by linarith, by linarith, by linarith,
    by linarith, by linarith, by linarith, by linarith, by linarith⟩

/-- C8 (amended): an attempted crop update is accepted exactly when its
percentages lie within the slider bounds; every accepted region is stored
as given (get after set returns it, the other slot untouched) and satisfies
`left < right`, `top < bottom` and all coordinates in `[0, 1]`; any region
violating these validity conditions is rejected. Not every valid region is
accepted, though: the slider bounds also reject some valid regions, which
is what the counterexample exhibits. -/
theorem crop_set_spec (st : CropState) (l t r b : ℤ) :
    (∀ st', setCropQ1 st l t r b = some st' →
      st'.q1 = ⟨(l : ℚ)/100, (t : ℚ)/100, (r : ℚ)/100, (b : ℚ)/100⟩ ∧
      validRegion st'.q1 ∧ cropCoordsFor st' true = st'.q1 ∧ st'.q2 = st.q2)
    ∧ (¬ validRegion ⟨(l : ℚ)/100, (t : ℚ)/100, (r : ℚ)/100, (b : ℚ)/100⟩ →
        setCropQ1 st l t r b = none)
    ∧ (∀ st', setCropQ2 st l t r b = some st' →
      st'.q2 = ⟨(l : ℚ)/100, (t : ℚ)/100, (r : ℚ)/100, (b : ℚ)/100⟩ ∧
      validRegion st'.q2 ∧ cropCoordsFor st' false = st'.q2 ∧ st'.q1 = st.q1)
    ∧ (¬ validRegion ⟨(l : ℚ)/100, (t : ℚ)/100, (r : ℚ)/100, (b : ℚ)/100⟩ →
        setCropQ2 st l t r b = none) := by
  refine ⟨?_, ?_, ?_, ?_⟩
  · intro st' h
    unfold setCropQ1 at h
    by_cases hOk : sliderOk l t r b
    · rw [if_pos hOk] at h
      obtain rfl : ({ st with
          q1 := ⟨(l : ℚ)/100, (t : ℚ)/100, (r : ℚ)/100, (b : ℚ)/100⟩ } :
            CropState) = st' := Option.some.inj h
      exact ⟨rfl, sliderOk_valid hOk, rfl, rfl⟩
    · rw [if_neg hOk] at h
      exact absurd h (Option.noConfusion)
  · intro hbad
    unfold setCropQ1
    rw [if_neg (fun hOk => hbad (sliderOk_valid hOk))]
  · intro st' h
    unfold setCropQ2 at h
    by_cases hOk : sliderOk l t r b
    · rw [if_pos hOk] at h
      obtain rfl : ({ st with
          q2 := ⟨(l : ℚ)/100, (t : ℚ)/100, (r : ℚ)/100, (b : ℚ)/100⟩ } :
            CropState) = st' := Option.some.inj h
      exact ⟨rfl, sliderOk_valid hOk, rfl, rfl⟩
    · rw [if_neg hOk] at h
      exact absurd h (Option.noConfusion)
  · intro hbad
    unfold setCropQ2
    rw [if_neg (fun hOk => hbad (sliderOk_valid hOk))]

/-- The state the C8 witness update stores. -/
def cwitState : CropState :=
  ⟨⟨((5 : ℤ) : ℚ)/100, ((10 : ℤ) : ℚ)/100, ((60 : ℤ) : ℚ)/100, ((80 : ℤ) : ℚ)/100⟩,
   defaultCropState.q2⟩

/-- C8 witness: the in-bounds update (5, 10, 60, 80) is accepted, stores a
valid region, and get after set returns it with the question-2 slot
untouched. -/
theorem crop_set_spec_witness :
    cwitState.q1 =
      ⟨((5 : ℤ) : ℚ)/100, ((10 : ℤ) : ℚ)/100, ((60 : ℤ) : ℚ)/100, ((80 : ℤ) : ℚ)/100⟩ ∧
    validRegion cwitState.q1 ∧ cropCoordsFor cwitState true = cwitState.q1 ∧
    cwitState.q2 = defaultCropState.q2 :=
  (crop_set_spec defaultCropState 5 10 60 80).1 cwitState
    (by unfold setCropQ1 cwitState; rw [if_pos (by decide)])

/-- C8 counterexample: the region (0.35, 0.10, 0.45, 0.90) satisfies the
claim's validity conditions, yet both set operations reject it (its left
and right percentages fall outside the slider bounds), so get-after-set
cannot return it: "for every valid region, get after set returns that same
region" fails on the code. -/
theorem crop_valid_region_not_settable :
    validRegion ⟨35/100, 10/100, 45/100, 90/100⟩ ∧
    setCropQ1 defaultCropState 35 10 45 90 = none ∧
    setCropQ2 defaultCropState 35 10 45 90 = none := by
  refine ⟨?_, ?_, ?_⟩
  · unfold validRegion
    norm_num
  · unfold setCropQ1
    rw [if_neg (by decide)]
  · unfold setCropQ2
    rw [if_neg (by decide)]

/-!  The save step (`save_ocr_to_sheet`, lines 231-240, and the save loop of
`main`, lines 1201-1213). -/

/-- One cell write against the roster store: worksheet of the record's
lesson, the cell at `(row, col)` where the column is H (8) for question 1
and O (15) otherwise (line 235). -/
structure SheetWrite where
  lesson : Int
  row : Nat
  col : Nat
  text : String
deriving DecidableEq

/-- The roster store, as the cell contents per (lesson worksheet, row,
column). -/
abbrev Store := Int → Nat → Nat → String

/-- `save_ocr_to_sheet` as the write it issues. -/
def save_ocr_to_sheet (lesson : Int) (row : Nat) (question_num : Int)
    (text : String) : SheetWrite :=
  ⟨lesson, row, if question_num = 1 then 8 else 15, text⟩

/-- The save loop (lines 1203-1213): `if student['row'] and
student.get('text')` guards each write. -/
def saveWrites : List AnswerRecord → List SheetWrite
  | [] => []
  | s :: rest =>
    if pyTruthyRow s.row && s.text != "" then
      save_ocr_to_sheet s.lesson (s.row.getD 0) s.question_num s.text ::
        saveWrites rest
    else saveWrites rest

/-- Applying one write to the store. -/
def applyWrite (store : Store) (w : SheetWrite) : Store :=
  fun L r c => if L = w.lesson ∧ r = w.row ∧ c = w.col then w.text else store L r c

/-- Applying the writes in order. -/
def applyWrites (store : Store) : List SheetWrite → Store
  | [] => store
  | w :: ws => applyWrites (applyWrite store w) ws

lemma saveWrites_eq :
    ∀ students : List AnswerRecord,
      saveWrites students =
        (students.filter (fun s => pyTruthyRow s.row && s.text != "")).map
          (fun s => save_ocr_to_sheet s.lesson (s.row.getD 0) s.question_num s.text) := by
  intro students
  induction students with
  | nil => rfl
  | cons s rest ih =>
    by_cases h : (pyTruthyRow s.row && s.text != "") = true
    · simp [saveWrites, List.filter, h, ih]
    · have h' : (pyTruthyRow s.row && s.text != "") = false := by
        cases hb : (pyTruthyRow s.row && s.text != "")
        · rfl
        · exact absurd hb h
      simp [saveWrites, List.filter, h', ih]

lemma applyWrites_frame :
    ∀ (ws : List SheetWrite) (store : Store) (L : Int) (r c : Nat),
      (∀ w ∈ ws, ¬(L = w.lesson ∧ r = w.row ∧ c = w.col)) →
      applyWrites store ws L r c = store L r c := by
  intro ws
  induction ws with
  | nil => intro store L r c _; rfl
  | cons w ws ih =>
    intro store L r c h
    show applyWrites (applyWrite store w) ws L r c = store L r c
    rw [ih _ _ _ _ (fun w' hw' => h w' (List.mem_cons_of_mem w hw'))]
    unfold applyWrite
    rw [if_neg (h w (List.mem_cons_self w ws))]

/-- C10: the save step issues exactly one cell write per record that has a
truthy matched row and nonempty text — at that record's row, in column 8
when `question_num = 1` and column 15 otherwise — and no write for any
other record; every store cell that no qualifying record addresses is left
unchanged. -/
theorem save_writes_spec :
    (∀ students : List AnswerRecord,
      saveWrites students =
        (students.filter (fun s => pyTruthyRow s.row && s.text != "")).map
          (fun s => save_ocr_to_sheet s.lesson (s.row.getD 0) s.question_num s.text))
    ∧ (∀ (lesson : Int) (row : Nat) (question_num : Int) (text : String),
        save_ocr_to_sheet lesson row question_num text =
          ⟨lesson, row, if question_num = 1 then 8 else 15, text⟩)
    ∧ (∀ (students : List AnswerRecord) (store : Store) (L : Int) (rN c : Nat),
        (∀ s ∈ students, (pyTruthyRow s.row && s.text != "") = true →
          ¬(L = s.lesson ∧ rN = s.row.getD 0 ∧
            c = (if s.question_num = 1 then 8 else 15))) →
        applyWrites store (saveWrites students) L rN c = store L rN c) := by
  refine ⟨saveWrites_eq, fun _ _ _ _ => rfl, ?_⟩
  intro students store L rN c h
  apply applyWrites_frame
  intro w hw
  rw [saveWrites_eq students] at hw
  rcases List.mem_map.1 hw with ⟨s, hs, hws⟩
  rcases List.mem_filter.1 hs with ⟨hsmem, hq⟩
  subst hws
  simpa [save_ocr_to_sheet] using h s hsmem hq

/-- C10 witness: of two records — one unmatched, one matched at row 3 with
question 2 — the save writes touch only cell (lesson 1, row 3, column 15),
so the cell (1, 9, 8) keeps its old contents. -/
theorem save_writes_spec_witness :
    applyWrites (fun _ _ _ => "")
        (saveWrites
          [⟨"이름미상", 1, 1, "", none, none, [1], "unmatched", "답", 90⟩,
           ⟨"김철수", 1, 2, "본원", some 3, none, [2], "matched", "답2", 90⟩])
        1 9 8 =
      (fun _ _ _ => ("" : String)) 1 9 8 :=
  save_writes_spec.2.2
    [⟨"이름미상", 1, 1, "", none, none, [1], "unmatched", "답", 90⟩,
     ⟨"김철수", 1, 2, "본원", some 3, none, [2], "matched", "답2", 90⟩]
    (fun _ _ _ => "") 1 9 8 (by decide)

end OcrWebApp
